import Mathlib

/-!
Verification of the gmail unattended digest script
(`src/gmail_unattended_script.py`) against its natural-language
specification.

The script is embedded shallowly:

* Network services (Gmail list/get/modify/send, OpenAI chat completions)
  are modelled as explicit inputs: page streams, oracles from message id
  to detail, and oracles from prompt to response.  A call that may raise
  an exception is modelled with `Except String`.
* Python dicts holding message data become the `Email` structure; the
  parsed JSON arguments of a function call become an association list.
* Side effects (classification requests, modify requests, the final
  send) are collected into an explicit `Effect` trace by `mainTrace`.
-/

namespace EmailBot

/-- One entry of a message's `payload.headers` list. -/
structure Header where
  name : String
  value : String
deriving Repr, DecidableEq

/-- The part of a `messages().get` response the script reads. -/
structure MsgDetail where
  snippet : String
  headers : List Header
deriving Repr, DecidableEq

/-- The part of a `messages().list` response the script reads: the
message ids of this page and the optional token for the next page. -/
structure Page where
  messageIds : List String
  nextPageToken : Option String
deriving Repr, DecidableEq

/-- The per-message record built by the fetcher and later enriched by the
classifier (in the Python source it is a dict that gains the keys
`category` and `summary` in `main`). -/
structure Email where
  id : String
  subject : String
  snippet : String
  category : String := ""
  summary : String := ""
deriving Repr, DecidableEq

/-- Python truthiness of `x or default` for an optional string: `None`
and the empty string are falsy, so both fall through to the default. -/
def pyOrStr (o : Option String) (dflt : String) : String :=
  match o with
  | none => dflt
  | some s => if s = "" then dflt else s

/-- The subject-extraction loop of `get_unread_emails_past_24h`: the
value of the first header whose lowercased name is `subject`. -/
def findSubject : List Header → Option String
  | [] => none
  | h :: rest =>
      if h.name.toLower = "subject" then some h.value else findSubject rest

/-- Builds the email record appended to `emails_data` for one fetched
message (`src/gmail_unattended_script.py` lines 148-154). -/
def mkEmailRec (msgId : String) (detail : MsgDetail) : Email :=
  { id := msgId
    subject := pyOrStr (findSubject detail.headers) "(No Subject)"
    snippet := detail.snippet }

/-- The inner `for msg in messages` loop of one page: each id is passed
to `messages().get` and the built records are collected in order; a
raised error (`Except.error`) aborts the loop. -/
def fetchMessages (getMsg : String → Except String MsgDetail) :
    List String → Except String (List Email)
  | [] => Except.ok []
  | msgId :: rest => do
      let detail ← getMsg msgId
      let more ← fetchMessages getMsg rest
      pure (mkEmailRec msgId detail :: more)

/-- The body of the fetch loop, inside the `try`.  `pages` is the stream
of successive `messages().list` results (one per loop iteration; an
`Except.error` models an `HttpError` raised by the request), `getMsg`
models `messages().get` for a given id.  An exhausted stream models a
request that fails to respond at all.  Any raised error aborts the whole
loop, as the `try` in the source wraps all iterations. -/
def fetchPages :
    List (Except String Page) → (String → Except String MsgDetail) →
    Except String (List Email)
  | [], _ => Except.error "no list response"
  | Except.error e :: _, _ => Except.error e
  | Except.ok page :: rest, getMsg => do
      let pageEmails ← fetchMessages getMsg page.messageIds
      match page.nextPageToken with
      | none => pure pageEmails
      | some _ => do
          let more ← fetchPages rest getMsg
          pure (pageEmails ++ more)

/-- `get_unread_emails_past_24h`: runs the paginated fetch loop and, on
any raised error, logs and returns the empty list (the `except` branch at
lines 164-166 of the source). -/
def get_unread_emails_past_24h
    (pages : List (Except String Page))
    (getMsg : String → Except String MsgDetail) : List Email :=
  match fetchPages pages getMsg with
  | Except.ok emails => emails
  | Except.error _ => []

/-- The OpenAI classification response as the script inspects it:
`error` models any exception raised during the request or while reading
it (including a `json.loads` failure, since `json.loads` sits inside the
same `try`), `noCall` a completion with no `function_call`, and `call`
a `function_call` whose JSON `arguments` parsed to the given
string-to-string association list. -/
inductive LMResponse where
  | error (msg : String)
  | noCall
  | call (args : List (String × String))
deriving Repr, DecidableEq

/-- Python `dict.get(key, default)` over the parsed arguments. -/
def dictGet (args : List (String × String)) (key dflt : String) : String :=
  match args.find? (fun kv => kv.1 = key) with
  | some kv => kv.2
  | none => dflt

/-- The classifier's result dict: a `category` and a `summary`. -/
structure ClassResult where
  category : String
  summary : String
deriving Repr, DecidableEq

/-- `classify_and_summarize_email` (lines 208-264).  The subject and the
snippet only feed the request prompt; the reply is the `resp` input. -/
def classify_and_summarize_email
    (_subject _snippet : String) (resp : LMResponse) : ClassResult :=
  match resp with
  | LMResponse.error e =>
      { category := "important"
        summary :=
          "Error occurred. Defaulting to category 'important'.\n\n**Details:** "
            ++ e }
  | LMResponse.noCall =>
      { category := "important"
        summary :=
          "Unable to parse email with function calling. Defaulting to 'important'." }
  | LMResponse.call args =>
      { category := dictGet args "category" "important"
        summary := dictGet args "summary" "" }

/-- The fixed three-value category enumeration of the classification
schema (`CLASSIFY_AND_SUMMARIZE_FUNCTION`). -/
def categoryEnum : List String := ["newsletter", "notification", "important"]

/-- `mark_non_important_as_read` (lines 270-289), modelled by the list of
message ids passed to a `messages().modify(removeLabelIds=[UNREAD])`
request, in loop order.  The network call itself is the effect; marking
a message read is identified with its id appearing in this list. -/
def mark_non_important_as_read : List Email → List String
  | [] => []
  | e :: rest =>
      if e.category ≠ "important" then
        e.id :: mark_non_important_as_read rest
      else
        mark_non_important_as_read rest

/-- The three lines appended to `lines` for one email of a category
group: the numbered subject line (Python `enumerate(..., start=1)`
supplies the index), the summary, and a blank line. -/
def groupLines (es : List Email) : List String :=
  (es.enum.map (fun p =>
    [ "**" ++ toString (p.1 + 1) ++ ".** **Subject:** " ++ p.2.subject,
      p.2.summary,
      "" ])).flatten

/-- The `lines` list built by `generate_executive_summary`
(lines 302-341).  `get_current_date_string` reads the wall clock, so the
date is a parameter. -/
def summaryLines (date : String) (classified_emails : List Email) :
    List String :=
  let important_emails :=
    classified_emails.filter (fun e => e.category = "important")
  let notification_emails :=
    classified_emails.filter (fun e => e.category = "notification")
  let newsletter_emails :=
    classified_emails.filter (fun e => e.category = "newsletter")
  ["**Executive Summary for " ++ date ++ "**\n"]
    ++ (if important_emails.isEmpty then []
        else "### Important Emails\n" :: groupLines important_emails)
    ++ (if notification_emails.isEmpty then []
        else "### Notifications\n" :: groupLines notification_emails)
    ++ (if newsletter_emails.isEmpty then []
        else "### Newsletters\n" :: groupLines newsletter_emails)
    ++ ["\n**End of Summary**"]

/-- Python `"\n".join(lines)`. -/
def joinLines : List String → String
  | [] => ""
  | [l] => l
  | l :: ls => l ++ "\n" ++ joinLines ls

/-- `generate_executive_summary`: the joined Markdown document. -/
def generate_executive_summary (date : String) (classified_emails : List Email) :
    String :=
  joinLines (summaryLines date classified_emails)

/-- The characters Python's `str.strip()` removes (ASCII whitespace). -/
def isPySpace (c : Char) : Bool :=
  c = ' ' || c = '\t' || c = '\n' || c = '\r' ||
  c = Char.ofNat 11 || c = Char.ofNat 12

/-- Python `str.strip()`: drop leading and trailing whitespace. -/
def pyStrip (s : String) : String :=
  String.mk (((s.data.dropWhile isPySpace).reverse.dropWhile isPySpace).reverse)

/-- Python `str.split("\n")` on the character list: always at least one
piece, a new piece after every newline. -/
def splitLinesAux : List Char → List (List Char)
  | [] => [[]]
  | c :: cs =>
      match splitLinesAux cs with
      | [] => [[]]
      | l :: ls => if c = '\n' then [] :: l :: ls else (c :: l) :: ls

/-- Python `str.split("\n")` as a function on strings. -/
def splitLines (s : String) : List String :=
  (splitLinesAux s.data).map String.mk

/-- `convert_md_to_html` (lines 350-367).  The model's reply is the
`resp` input (`Except.error` models a raised exception).  On success the
reply is stripped, split into lines, the first and last line are removed
(Python `[1:-1]`), and the rest is rejoined; on failure an error
paragraph is returned. -/
def convert_md_to_html (resp : Except String String) : String :=
  match resp with
  | Except.ok content =>
      let html_output := pyStrip content
      joinLines (((splitLines html_output).drop 1).dropLast)
  | Except.error e =>
      "<p>Error converting Markdown to HTML: " ++ e ++ "</p>"

/-- Specification-side renderer of one category group's entry lines,
numbering entries with an explicit counter: entry `n`, then `n + 1`, and
so on.  Used to state that the source's `enumerate`-based rendering
numbers entries consecutively from the given start. -/
def numberedFrom (n : Nat) : List Email → List String
  | [] => []
  | e :: es =>
      ("**" ++ toString n ++ ".** **Subject:** " ++ e.subject)
        :: e.summary :: "" :: numberedFrom (n + 1) es

/-- Specification-side renderer of one category section: nothing for an
empty group, otherwise the header followed by entries numbered from 1. -/
def renderSection (header : String) (es : List Email) : List String :=
  if es.isEmpty then [] else header :: numberedFrom 1 es

/-- Everything external a run consumes: the wall-clock date, the Gmail
list/get responses, and the OpenAI reply oracles (classification keyed
by subject and snippet, conversion keyed by the Markdown document). -/
structure World where
  date : String
  pages : List (Except String Page)
  getMsg : String → Except String MsgDetail
  classifyResp : String → String → LMResponse
  convertResp : String → Except String String

/-- The externally visible operations of the stages after the fetch: a
classification request, a modify (mark-as-read) request, the final send. -/
inductive Effect where
  | classifyReq (subject snippet : String)
  | modifyReq (msgId : String)
  | sendReq (body : String)
deriving Repr, DecidableEq

/-- The classification loop of `main` (lines 407-416): each fetched
email gains the category and summary returned for it. -/
def classifyAll (w : World) (unread : List Email) : List Email :=
  unread.map (fun e =>
    let result :=
      classify_and_summarize_email e.subject e.snippet
        (w.classifyResp e.subject e.snippet)
    { e with category := result.category, summary := result.summary })

/-- `main` (lines 394-435) as an effect trace: fetch, then — only when
the fetched list is non-empty — one classification request per email,
the modify requests of `mark_non_important_as_read`, and the final send
of the converted digest.  `if not unread_emails: return` is the empty
trace. -/
def mainTrace (w : World) : List Effect :=
  let unread := get_unread_emails_past_24h w.pages w.getMsg
  if unread.isEmpty then []
  else
    let classified := classifyAll w unread
    let summary_md := generate_executive_summary w.date classified
    let summary_html := convert_md_to_html (w.convertResp summary_md)
    (unread.map (fun e => Effect.classifyReq e.subject e.snippet))
      ++ (mark_non_important_as_read classified).map Effect.modifyReq
      ++ [Effect.sendReq summary_html]

/-! ## Helper lemmas -/

theorem str_append_ne_empty (a b : String) (h : a.data ≠ []) : a ++ b ≠ "" := by
  intro hc
  apply h
  have h2 : (a ++ b).data = ("" : String).data := congrArg String.data hc
  rw [String.data_append] at h2
  exact (List.append_eq_nil.mp h2).1

theorem fetchMessages_ok (getMsg : String → Except String MsgDetail)
    (ids : List String)
    (hok : ∀ m ∈ ids, ∃ d, getMsg m = Except.ok d) :
    ∃ res : List Email, fetchMessages getMsg ids = Except.ok res := by
  induction ids with
  | nil => exact ⟨[], rfl⟩
  | cons m rest ih =>
      obtain ⟨d, hd⟩ := hok m (List.mem_cons_self _ _)
      obtain ⟨res, hres⟩ := ih (fun x hx => hok x (List.mem_cons_of_mem _ hx))
      refine ⟨mkEmailRec m d :: res, ?_⟩
      simp [fetchMessages, hd, hres, Except.instMonad, Except.bind, Except.pure]

theorem fetchPages_error_after_ok (okPages : List Page) (e : String)
    (rest : List (Except String Page))
    (getMsg : String → Except String MsgDetail)
    (hnext : ∀ p ∈ okPages, p.nextPageToken.isSome)
    (hok : ∀ p ∈ okPages, ∀ m ∈ p.messageIds, ∃ d, getMsg m = Except.ok d) :
    fetchPages (okPages.map Except.ok ++ Except.error e :: rest) getMsg
      = Except.error e := by
  induction okPages with
  | nil => rfl
  | cons p ps ih =>
      obtain ⟨res, hres⟩ :=
        fetchMessages_ok getMsg p.messageIds (hok p (List.mem_cons_self _ _))
      obtain ⟨tok, htok⟩ :=
        Option.isSome_iff_exists.mp (hnext p (List.mem_cons_self _ _))
      have ih2 := ih (fun q hq => hnext q (List.mem_cons_of_mem _ hq))
        (fun q hq => hok q (List.mem_cons_of_mem _ hq))
      simp [fetchPages, hres, htok, ih2, Except.instMonad, Except.bind,
        Except.pure]

theorem mark_mem_source (emails : List Email) (x : String)
    (hx : x ∈ mark_non_important_as_read emails) :
    ∃ e, e ∈ emails ∧ e.id = x ∧ e.category ≠ "important" := by
  induction emails with
  | nil => simp [mark_non_important_as_read] at hx
  | cons a rest ih =>
      by_cases h : a.category = "important"
      · rw [mark_non_important_as_read, if_neg (by simp [h])] at hx
        obtain ⟨e, he, hid, hcat⟩ := ih hx
        exact ⟨e, List.mem_cons_of_mem _ he, hid, hcat⟩
      · rw [mark_non_important_as_read, if_pos h] at hx
        rcases List.mem_cons.mp hx with h1 | h1
        · exact ⟨a, List.mem_cons_self _ _, h1.symm, h⟩
        · obtain ⟨e, he, hid, hcat⟩ := ih h1
          exact ⟨e, List.mem_cons_of_mem _ he, hid, hcat⟩

theorem mark_mem_of_not_important (emails : List Email) (e : Email)
    (he : e ∈ emails) (hcat : e.category ≠ "important") :
    e.id ∈ mark_non_important_as_read emails := by
  induction emails with
  | nil => cases he
  | cons a rest ih =>
      rcases List.mem_cons.mp he with h1 | h1
      · subst h1
        rw [mark_non_important_as_read, if_pos hcat]
        exact List.mem_cons_self _ _
      · by_cases h : a.category = "important"
        · rw [mark_non_important_as_read, if_neg (by simp [h])]
          exact ih h1
        · rw [mark_non_important_as_read, if_pos h]
          exact List.mem_cons_of_mem _ (ih h1)

theorem groupLines_aux (es : List Email) (n : Nat) :
    ((es.enumFrom n).map (fun p =>
      [ "**" ++ toString (p.1 + 1) ++ ".** **Subject:** " ++ p.2.subject,
        p.2.summary,
        "" ])).flatten = numberedFrom (n + 1) es := by
  induction es generalizing n with
  | nil => rfl
  | cons e es ih =>
      simp [List.enumFrom, numberedFrom, ih]

theorem groupLines_eq (es : List Email) :
    groupLines es = numberedFrom 1 es := by
  have := groupLines_aux es 0
  simpa [groupLines, List.enum] using this

theorem summaryLines_eq_sections (date : String) (emails : List Email) :
    summaryLines date emails =
      ["**Executive Summary for " ++ date ++ "**\n"]
        ++ renderSection "### Important Emails\n"
            (emails.filter (fun e => e.category = "important"))
        ++ renderSection "### Notifications\n"
            (emails.filter (fun e => e.category = "notification"))
        ++ renderSection "### Newsletters\n"
            (emails.filter (fun e => e.category = "newsletter"))
        ++ ["\n**End of Summary**"] := by
  simp only [summaryLines, renderSection, groupLines_eq]

theorem filter_partition_perm (emails : List Email)
    (h : ∀ e ∈ emails, e.category ∈ categoryEnum) :
    (emails.filter (fun e => e.category = "important")
      ++ emails.filter (fun e => e.category = "notification")
      ++ emails.filter (fun e => e.category = "newsletter")).Perm emails := by
  induction emails with
  | nil => rfl
  | cons e es ih =>
      have he := h e (List.mem_cons_self _ _)
      have ihp := ih (fun x hx => h x (List.mem_cons_of_mem _ hx))
      simp only [categoryEnum, List.mem_cons, List.mem_singleton,
        List.not_mem_nil, or_false] at he
      rcases he with h1 | h1 | h1
      · simp only [List.filter_cons, h1]
        simp
        rw [List.append_assoc] at ihp
        exact (List.Perm.append_left _ List.perm_middle).trans
          (List.perm_middle.trans (ihp.cons e))
      · simp only [List.filter_cons, h1]
        simp
        rw [List.append_assoc] at ihp
        exact List.perm_middle.trans (ihp.cons e)
      · simp only [List.filter_cons, h1]
        simp
        rw [List.append_assoc] at ihp
        exact ihp

/-! ## Claims -/

/-- Claim C9: a fetched message with no `Subject` header gets the
placeholder subject `(No Subject)`, and the subject of every returned
record is a non-empty string. -/
theorem fetched_subject_nonempty (msgId : String) (detail : MsgDetail) :
    (findSubject detail.headers = none →
      (mkEmailRec msgId detail).subject = "(No Subject)")
    ∧ (mkEmailRec msgId detail).subject ≠ "" := by
  constructor
  · intro h
    simp [mkEmailRec, pyOrStr, h]
  · simp only [mkEmailRec]
    cases hf : findSubject detail.headers with
    | none => simp [pyOrStr]
    | some s =>
        by_cases hs : s = ""
        · simp [pyOrStr, hs]
        · simp [pyOrStr, hs]

/-- Witness for C9 at a concrete message with no headers. -/
theorem fetched_subject_nonempty_witness :
    (findSubject (MsgDetail.mk "snip" []).headers = none →
      (mkEmailRec "m1" (MsgDetail.mk "snip" [])).subject = "(No Subject)")
    ∧ (mkEmailRec "m1" (MsgDetail.mk "snip" [])).subject ≠ "" :=
  fetched_subject_nonempty "m1" (MsgDetail.mk "snip" [])

/-- Claim C10: when the function call's parsed arguments lack the
`summary` key the returned summary is the empty string, and when they
lack the `category` key the returned category is `important`. -/
theorem classify_missing_keys_defaults (subject snippet : String)
    (args : List (String × String)) :
    (args.find? (fun kv => kv.1 = "summary") = none →
      (classify_and_summarize_email subject snippet
        (LMResponse.call args)).summary = "")
    ∧ (args.find? (fun kv => kv.1 = "category") = none →
      (classify_and_summarize_email subject snippet
        (LMResponse.call args)).category = "important") := by
  constructor <;> intro h <;>
    simp [classify_and_summarize_email, dictGet, h]

/-- Witness for C10 at empty parsed arguments. -/
theorem classify_missing_keys_defaults_witness :
    (classify_and_summarize_email "s" "sn"
      (LMResponse.call [])).summary = ""
    ∧ (classify_and_summarize_email "s" "sn"
      (LMResponse.call [])).category = "important" :=
  ⟨(classify_missing_keys_defaults "s" "sn" []).1 rfl,
   (classify_missing_keys_defaults "s" "sn" []).2 rfl⟩

/-- Claim C3: on a malformed or missing classification response — no
function call returned, or any exception raised during the request or
while parsing it — the classifier returns category `important` with a
non-empty explanatory summary (and, being a total function, does not
raise). -/
theorem classify_malformed_defaults_important (subject snippet : String)
    (resp : LMResponse)
    (h : resp = LMResponse.noCall ∨ ∃ e, resp = LMResponse.error e) :
    (classify_and_summarize_email subject snippet resp).category = "important"
    ∧ (classify_and_summarize_email subject snippet resp).summary ≠ "" := by
  rcases h with h | ⟨e, h⟩ <;> subst h
  · refine ⟨rfl, ?_⟩
    show ("Unable to parse email with function calling. Defaulting to 'important'." : String) ≠ ""
    decide
  · refine ⟨rfl, ?_⟩
    show "Error occurred. Defaulting to category 'important'.\n\n**Details:** " ++ e ≠ ""
    exact str_append_ne_empty _ e (by decide)

/-- Witness for C3 at a concrete exception response. -/
theorem classify_malformed_defaults_important_witness :
    (classify_and_summarize_email "s" "sn"
      (LMResponse.error "boom")).category = "important"
    ∧ (classify_and_summarize_email "s" "sn"
      (LMResponse.error "boom")).summary ≠ "" :=
  classify_malformed_defaults_important "s" "sn" (LMResponse.error "boom")
    (Or.inr ⟨"boom", rfl⟩)

/-- Claim C1: a fetched message's unread flag is cleared via a modify
request exactly when its attached category is not `important`
(marking read is modelled by the id appearing in the list of issued
modify requests; message ids are assumed pairwise distinct, as Gmail
ids are). -/
theorem marked_read_iff_not_important (emails : List Email) (e : Email)
    (hmem : e ∈ emails) (hnodup : (emails.map Email.id).Nodup) :
    e.id ∈ mark_non_important_as_read emails ↔ e.category ≠ "important" := by
  constructor
  · intro hx
    obtain ⟨e2, he2, hid, hcat⟩ := mark_mem_source emails e.id hx
    have : e2 = e := List.inj_on_of_nodup_map hnodup he2 hmem hid
    exact this ▸ hcat
  · intro hcat
    exact mark_mem_of_not_important emails e hmem hcat

/-- Witness for C1 at a two-message run: the newsletter is modified,
the important message would not be. -/
theorem marked_read_iff_not_important_witness :
    (Email.mk "a" "s1" "n1" "newsletter" "m1").id ∈
      mark_non_important_as_read
        [Email.mk "a" "s1" "n1" "newsletter" "m1",
         Email.mk "b" "s2" "n2" "important" "m2"]
    ↔ (Email.mk "a" "s1" "n1" "newsletter" "m1").category ≠ "important" :=
  marked_read_iff_not_important
    [Email.mk "a" "s1" "n1" "newsletter" "m1",
     Email.mk "b" "s2" "n2" "important" "m2"]
    (Email.mk "a" "s1" "n1" "newsletter" "m1")
    (by decide) (by decide)

/-- Counterexample to C2 as stated: a well-formed function call whose
`category` argument is `spam` — outside the enumeration — is passed
through unchanged by the classifier. -/
theorem classify_category_escapes_enum :
    (classify_and_summarize_email "s" "sn"
      (LMResponse.call [("category", "spam"), ("summary", "x")])).category
      = "spam"
    ∧ "spam" ∉ categoryEnum := by
  constructor
  · rfl
  · decide

/-- Claim C2 (amended): the attached category is one of the three
enumerated values whenever the response is missing or malformed, or its
`category` field is absent, or the value the response supplies for
`category` lies in the enumeration; a well-formed response carrying an
out-of-enumeration category value is propagated unchanged (see the
counterexample). -/
theorem classify_category_in_enum (subject snippet : String)
    (resp : LMResponse)
    (h : ∀ args kv, resp = LMResponse.call args →
      args.find? (fun p => p.1 = "category") = some kv →
      kv.2 ∈ categoryEnum) :
    (classify_and_summarize_email subject snippet resp).category
      ∈ categoryEnum := by
  cases resp with
  | error e => simp [classify_and_summarize_email, categoryEnum]
  | noCall => simp [classify_and_summarize_email, categoryEnum]
  | call args =>
      simp only [classify_and_summarize_email, dictGet]
      cases hf : args.find? (fun p => p.1 = "category") with
      | none => simp [categoryEnum]
      | some kv => exact h args kv rfl hf

/-- Witness for the amended C2 at a well-formed in-enumeration call. -/
theorem classify_category_in_enum_witness :
    (classify_and_summarize_email "s" "sn"
      (LMResponse.call [("category", "newsletter"), ("summary", "x")])).category
      ∈ categoryEnum :=
  classify_category_in_enum "s" "sn"
    (LMResponse.call [("category", "newsletter"), ("summary", "x")])
    (by
      intro args kv h1 h2
      injection h1 with h1
      subst h1
      simp [List.find?] at h2
      simp [← h2, categoryEnum])

/-- Claim C5: when the fetch stage returns zero unread messages, the
run issues no classification request, no modify request and no send —
the trace of those operations is empty, as `main` returns first. -/
theorem no_unread_no_operations (w : World)
    (h : get_unread_emails_past_24h w.pages w.getMsg = []) :
    mainTrace w = [] := by
  simp [mainTrace, h]

/-- Witness for C5: a world whose single list page is empty. -/
theorem no_unread_no_operations_witness :
    mainTrace
      (World.mk "D" [Except.ok (Page.mk [] none)]
        (fun _ => Except.error "down")
        (fun _ _ => LMResponse.noCall)
        (fun _ => Except.error "down")) = [] :=
  no_unread_no_operations
    (World.mk "D" [Except.ok (Page.mk [] none)]
      (fun _ => Except.error "down")
      (fun _ _ => LMResponse.noCall)
      (fun _ => Except.error "down"))
    rfl

/-- Counterexample to C8 as stated: a conversion response with two
content lines and no code fences loses both lines — the remaining
content of the response is not preserved. -/
theorem convert_drops_nonfence_content :
    splitLines (pyStrip "<p>one</p>\n<p>two</p>")
      = ["<p>one</p>", "<p>two</p>"]
    ∧ convert_md_to_html (Except.ok "<p>one</p>\n<p>two</p>") = "" := by
  decide

/-- Claim C8 (amended): the reporter unconditionally removes the first
and the last line of the whitespace-stripped conversion response and
preserves, joined by newlines, exactly the lines strictly between them;
when the response is a fenced code block this strips precisely the two
fence lines and keeps the fenced content. -/
theorem convert_strips_first_and_last_lines (content : String)
    (top bottom : String) (body : List String)
    (h : splitLines (pyStrip content) = top :: (body ++ [bottom])) :
    convert_md_to_html (Except.ok content) = joinLines body := by
  simp only [convert_md_to_html]
  rw [h]
  simp

/-- Witness for the amended C8 at a fenced conversion response. -/
theorem convert_strips_first_and_last_lines_witness :
    convert_md_to_html (Except.ok "```html\n<p>hi</p>\n```")
      = joinLines ["<p>hi</p>"] :=
  convert_strips_first_and_last_lines "```html\n<p>hi</p>\n```"
    "```html" "```" ["<p>hi</p>"] (by decide)

/-- Claim C7: when a request raised during the fetch loop — here the
list request after any number of fully successful pages — the fetcher
returns the empty collection, discarding the messages already retrieved
from the earlier pages (the `try` wraps the whole loop). -/
theorem fetch_failure_returns_empty (okPages : List Page) (e : String)
    (rest : List (Except String Page))
    (getMsg : String → Except String MsgDetail)
    (hnext : ∀ p ∈ okPages, p.nextPageToken.isSome)
    (hok : ∀ p ∈ okPages, ∀ m ∈ p.messageIds, ∃ d, getMsg m = Except.ok d) :
    get_unread_emails_past_24h
      (okPages.map Except.ok ++ Except.error e :: rest) getMsg = [] := by
  unfold get_unread_emails_past_24h
  rw [fetchPages_error_after_ok okPages e rest getMsg hnext hok]

/-- Witness for C7: one successful page holding one retrievable message,
then a failing list request — the result is still empty. -/
theorem fetch_failure_returns_empty_witness :
    get_unread_emails_past_24h
      ([Page.mk ["m1"] (some "tok")].map Except.ok
        ++ Except.error "boom" :: [])
      (fun _ => Except.ok (MsgDetail.mk "snip" [])) = [] :=
  fetch_failure_returns_empty [Page.mk ["m1"] (some "tok")] "boom" []
    (fun _ => Except.ok (MsgDetail.mk "snip" []))
    (by decide)
    (fun p _ m _ => ⟨MsgDetail.mk "snip" [], rfl⟩)

/-- Claim C6: the digest's line list is the title, then the sections in
the fixed order important, notification, newsletter — each non-empty
group introduced by its header and its entries numbered consecutively
from 1 (`renderSection` and `numberedFrom` express exactly that
rendering) — then the closing line. -/
theorem digest_fixed_order_and_numbering (date : String)
    (classified_emails : List Email) :
    summaryLines date classified_emails =
      ["**Executive Summary for " ++ date ++ "**\n"]
        ++ renderSection "### Important Emails\n"
            (classified_emails.filter (fun e => e.category = "important"))
        ++ renderSection "### Notifications\n"
            (classified_emails.filter (fun e => e.category = "notification"))
        ++ renderSection "### Newsletters\n"
            (classified_emails.filter (fun e => e.category = "newsletter"))
        ++ ["\n**End of Summary**"] :=
  summaryLines_eq_sections date classified_emails

/-- Counterexample to C4 as stated: a classified message whose category
lies outside the enumeration (possible per the counterexample to C2)
matches none of the three groups, so it appears zero times — not exactly
once — in the rendered digest. -/
theorem digest_misses_out_of_enum_message :
    summaryLines "D" [Email.mk "a" "s" "n" "spam" "m"] =
      ["**Executive Summary for " ++ "D" ++ "**\n", "\n**End of Summary**"]
    ∧ "spam" ∉ categoryEnum := by
  decide

/-- Claim C4 (amended): when every classified message carries one of the
three enumerated categories, the digest splits into three groups whose
concatenation is a permutation of the classified messages — each message
appears exactly once — and each group sits under the header of its own
category. -/
theorem digest_contains_each_message_once (date : String)
    (emails : List Email)
    (h : ∀ e ∈ emails, e.category ∈ categoryEnum) :
    ∃ imp notif news : List Email,
      summaryLines date emails =
        ["**Executive Summary for " ++ date ++ "**\n"]
          ++ renderSection "### Important Emails\n" imp
          ++ renderSection "### Notifications\n" notif
          ++ renderSection "### Newsletters\n" news
          ++ ["\n**End of Summary**"]
      ∧ (imp ++ notif ++ news).Perm emails
      ∧ (∀ e ∈ imp, e.category = "important")
      ∧ (∀ e ∈ notif, e.category = "notification")
      ∧ (∀ e ∈ news, e.category = "newsletter") := by
  refine ⟨emails.filter (fun e => e.category = "important"),
    emails.filter (fun e => e.category = "notification"),
    emails.filter (fun e => e.category = "newsletter"),
    summaryLines_eq_sections date emails,
    filter_partition_perm emails h, ?_, ?_, ?_⟩ <;>
    intro e he <;> simpa using (List.mem_filter.mp he).2

/-- Witness for C4 at a concrete three-message run. -/
theorem digest_contains_each_message_once_witness :
    ∃ imp notif news : List Email,
      summaryLines "D"
        [Email.mk "a" "s1" "n1" "important" "m1",
         Email.mk "b" "s2" "n2" "newsletter" "m2",
         Email.mk "c" "s3" "n3" "notification" "m3"] =
        ["**Executive Summary for " ++ "D" ++ "**\n"]
          ++ renderSection "### Important Emails\n" imp
          ++ renderSection "### Notifications\n" notif
          ++ renderSection "### Newsletters\n" news
          ++ ["\n**End of Summary**"]
      ∧ (imp ++ notif ++ news).Perm
          [Email.mk "a" "s1" "n1" "important" "m1",
           Email.mk "b" "s2" "n2" "newsletter" "m2",
           Email.mk "c" "s3" "n3" "notification" "m3"]
      ∧ (∀ e ∈ imp, e.category = "important")
      ∧ (∀ e ∈ notif, e.category = "notification")
      ∧ (∀ e ∈ news, e.category = "newsletter") :=
  digest_contains_each_message_once "D"
    [Email.mk "a" "s1" "n1" "important" "m1",
     Email.mk "b" "s2" "n2" "newsletter" "m2",
     Email.mk "c" "s3" "n3" "notification" "m3"]
    (by decide)

end EmailBot
